import Mathlib

/-!
Verification of the memfd-exec core (src/executable.rs, src/process.rs).

Shallow embedding conventions:
* Byte strings are `List Nat` (each element one byte value).
* A Rust `CString` is represented by its content bytes (without the trailing
  NUL terminator); `cstr_with_nul` produces the full encoded form.
* Syscall and collaborator outcomes (memfd_create, fexecve, waitpid, ...)
  are passed in explicitly as oracle values, since they are external to the
  embedded code; the embedded definitions reproduce the source's control
  flow over those outcomes.
-/

namespace MemfdExec

/-- Error values distinguished by the embedded code, mirroring the
`std::io::ErrorKind` values and raw errnos the source constructs. -/
inductive IOError
  | invalidInput
  | permissionDenied (errno : Nat)
  | brokenPipe
  | lastOsError (errno : Nat)
  | osError (errno : Nat)
deriving DecidableEq

/-- Content bytes of the `"<string-with-nul>"` placeholder used by `os2c`. -/
def sentinel : List Nat :=
  [60, 115, 116, 114, 105, 110, 103, 45, 119, 105, 116, 104, 45, 110, 117, 108, 62]

/-- `CString::new(s)`: fails exactly when the byte sequence contains an
embedded NUL; otherwise the `CString`'s content is `s`. -/
def cstring_new (s : List Nat) : Option (List Nat) :=
  if s.contains 0 then none else some s

/-- The encoded bytes of a `CString` (content plus trailing NUL), as passed
to the exec call. -/
def cstr_with_nul (c : List Nat) : List Nat := c ++ [0]

/-- `os2c` (executable.rs:112-117): convert an `OsStr` to a `CString`; on an
embedded NUL, substitute the `"<string-with-nul>"` placeholder and set the
`saw_nul` flag. Returns the `CString` content and the updated flag. -/
def os2c (s : List Nat) (saw_nul : Bool) : List Nat × Bool :=
  match cstring_new s with
  | some c => (c, saw_nul)
  | none => (sentinel, true)

/-- `construct_envp` (executable.rs:119-136): build one `KEY=VALUE` C string
per environment entry (61 is the byte of the equals sign); entries whose
`KEY=VALUE` bytes contain a NUL are dropped and set the `saw_nul` flag. -/
def construct_envp (env : List (List Nat × List Nat)) (saw_nul : Bool) :
    List (List Nat) × Bool :=
  match env with
  | [] => ([], saw_nul)
  | (k, v) :: rest =>
    let kv := k ++ 61 :: v
    match cstring_new kv with
    | some item =>
      let r := construct_envp rest saw_nul
      (item :: r.1, r.2)
    | none => construct_envp rest true

/-- Claim C6: for an input without an embedded NUL the builder yields exactly the
input bytes plus a trailing NUL; for one with an embedded NUL, `os2c`
substitutes the sentinel placeholder and sets the validity flag, and
`construct_envp` drops the entry and sets the flag. -/
theorem os2c_construct_envp_nul_handling
    (s k v : List Nat) (rest : List (List Nat × List Nat)) (saw : Bool) :
    ((0 : Nat) ∉ s →
      os2c s saw = (s, saw) ∧ cstr_with_nul (os2c s saw).1 = s ++ [0])
    ∧ ((0 : Nat) ∈ s → os2c s saw = (sentinel, true))
    ∧ ((0 : Nat) ∈ k ++ 61 :: v →
      construct_envp ((k, v) :: rest) saw = construct_envp rest true)
    ∧ ((0 : Nat) ∉ k ++ 61 :: v →
      construct_envp ((k, v) :: rest) saw =
        ((k ++ 61 :: v) :: (construct_envp rest saw).1,
          (construct_envp rest saw).2)) := by
  refine ⟨?_, ?_, ?_, ?_⟩ <;> intro h <;>
    simp [os2c, cstring_new, cstr_with_nul, construct_envp, h]

/-- Witness for `os2c_construct_envp_nul_handling` at concrete inputs. -/
theorem os2c_construct_envp_nul_handling_witness :
    (os2c [104, 105] false = ([104, 105], false)
      ∧ cstr_with_nul (os2c [104, 105] false).1 = [104, 105] ++ [0])
    ∧ os2c [104, 0] false = (sentinel, true)
    ∧ construct_envp [([75], [0])] false = construct_envp [] true
    ∧ construct_envp [([75], [86])] false =
        (([75] ++ 61 :: [86]) :: (construct_envp [] false).1,
          (construct_envp [] false).2) :=
  ⟨(os2c_construct_envp_nul_handling [104, 105] [75] [86] [] false).1 (by decide),
   (os2c_construct_envp_nul_handling [104, 0] [75] [86] [] false).2.1 (by decide),
   (os2c_construct_envp_nul_handling [104, 105] [75] [0] [] false).2.2.1 (by decide),
   (os2c_construct_envp_nul_handling [104, 105] [75] [86] [] false).2.2.2 (by decide)⟩

/-- The `MemFdExecutable` request builder (executable.rs:76-104). The borrowed
image bytes are `code`; `program` is the `CString` made from the construction
name; `args` and `argv` both hold the full argument vector including
argument 0; `saw_nul` records whether any input string held an embedded NUL.
Stdio configuration and the environment diff are external collaborators and
are passed separately to the functions that consume them. -/
structure MemFdExecutable where
  code : List Nat
  name : List Nat
  program : List Nat
  args : List (List Nat)
  argv : List (List Nat)
  saw_nul : Bool

/-- `MemFdExecutable::new` (executable.rs:203-219). -/
def MemFdExecutable.new (name : List Nat) (code : List Nat) : MemFdExecutable :=
  let r := os2c name false
  { code := code, name := name, program := r.1,
    args := [r.1], argv := [r.1], saw_nul := r.2 }

/-- `MemFdExecutable::arg` (executable.rs:222-227): push the converted
argument onto both `argv` and `args`. -/
def MemFdExecutable.arg (c : MemFdExecutable) (a : List Nat) : MemFdExecutable :=
  let r := os2c a c.saw_nul
  { c with argv := c.argv ++ [r.1], args := c.args ++ [r.1], saw_nul := r.2 }

/-- `MemFdExecutable::set_program` (executable.rs:456-460): overwrite
`argv[0]` and `args[0]` with the converted new name. The `program` field is
not touched. -/
def MemFdExecutable.set_program (c : MemFdExecutable) (program : List Nat) :
    MemFdExecutable :=
  let r := os2c program c.saw_nul
  { c with argv := c.argv.set 0 r.1, args := c.args.set 0 r.1, saw_nul := r.2 }

/-- `MemFdExecutable::get_program_cstr` (executable.rs:529-531). -/
def MemFdExecutable.get_program_cstr (c : MemFdExecutable) : List Nat :=
  c.program

/-- `MemFdExecutable::program_is_path` (executable.rs:545-547): whether the
`program` bytes contain a slash (byte 47). -/
def MemFdExecutable.program_is_path (c : MemFdExecutable) : Bool :=
  c.program.contains 47

/-- `MemFdExecutable::capture_env` (executable.rs:501-504): the environment
diff's `capture_if_changed` result (an external collaborator, passed in as
`captured`: `none` means the inherited environment is unchanged) is mapped
through `construct_envp`, threading the `saw_nul` flag. -/
def capture_env (captured : Option (List (List Nat × List Nat)))
    (saw_nul : Bool) : Option (List (List Nat)) × Bool :=
  match captured with
  | none => (none, saw_nul)
  | some env =>
    let r := construct_envp env saw_nul
    (some r.1, r.2)

/-- The envp vector that `do_exec` (executable.rs:675-677) actually hands to
every `fexecve` call site: `maybe_envp.unwrap_or_default()`, i.e. the absent
environment becomes the empty vector. -/
def do_exec_envp (maybe_envp : Option (List (List Nat))) : List (List Nat) :=
  maybe_envp.getD []

/-- Outcome of the part of `spawn` that runs before the fork. -/
inductive PreForkOutcome
  | errBeforeFork (e : IOError)
  | forked
deriving DecidableEq

/-- The pre-fork phase of `MemFdExecutable::spawn` (executable.rs:370-397):
after `capture_env`, the code inspects `saw_nul` but the body of that `if` is
an empty `TODO` comment, so no error is returned; then `setup_io` and
`anon_pipe` (external collaborators, their results passed in) can each fail
before the fork; otherwise the code reaches `do_fork`. -/
def spawn_prefork (saw_nul_after_capture : Bool)
    (setup_io_res : Except IOError Unit) (anon_pipe_res : Except IOError Unit) :
    PreForkOutcome :=
  let _ := saw_nul_after_capture
  match setup_io_res with
  | .error e => .errBeforeFork e
  | .ok _ =>
    match anon_pipe_res with
    | .error e => .errBeforeFork e
    | .ok _ => .forked

/-- Outcome of the part of `exec` that runs before `do_exec`. -/
inductive ExecPre
  | errReturn (e : IOError)
  | proceededToDoExec
deriving DecidableEq

/-- The early phase of `MemFdExecutable::exec` (executable.rs:512-526): after
`capture_env`, a set `saw_nul` flag returns an invalid-input error; otherwise
a `setup_io` failure is returned, else control reaches `do_exec`. -/
def exec_precheck (saw_nul_after_capture : Bool)
    (setup_io_res : Except IOError Unit) : ExecPre :=
  if saw_nul_after_capture then .errReturn .invalidInput
  else
    match setup_io_res with
    | .error e => .errReturn e
    | .ok _ => .proceededToDoExec

/-- Claim C2: a request holding an argument with an embedded NUL has the validity
flag set, and `exec` does refuse it with an invalid-input error — but
`spawn` ignores the flag (its check has an empty TODO body) and proceeds to
fork, contradicting the claim that spawn fails and never forks. -/
theorem spawn_forks_despite_nul :
    ((MemFdExecutable.new [110, 99] [1]).arg [97, 0, 98]).saw_nul = true
    ∧ spawn_prefork ((MemFdExecutable.new [110, 99] [1]).arg [97, 0, 98]).saw_nul
        (.ok ()) (.ok ()) = .forked
    ∧ exec_precheck ((MemFdExecutable.new [110, 99] [1]).arg [97, 0, 98]).saw_nul
        (.ok ()) = .errReturn .invalidInput := by
  refine ⟨?_, ?_, ?_⟩ <;> rfl

/-- Claim C5: when the environment diff reports "unchanged" (`capture_if_changed`
returns `none`), `capture_env` propagates `none`, but `do_exec` converts that
into the empty envp vector via `unwrap_or_default` and hands that empty
vector to `fexecve`: the child is executed with an empty environment, not
with the inherited ambient one (here `[PATH=/bin]` as a sample nonempty
ambient environment). -/
theorem unchanged_env_becomes_empty_envp :
    (capture_env none false).1 = none
    ∧ do_exec_envp (capture_env none false).1 = []
    ∧ do_exec_envp (capture_env none false).1
        ≠ [[80, 65, 84, 72, 61, 47, 98, 105, 110]] := by
  refine ⟨rfl, rfl, ?_⟩
  decide

/-- Claim C10: after `set_program`, `argv[0]` and `args[0]` hold the converted new
name, while the `program` field — and therefore `get_program_cstr` and
`program_is_path` — still reflect the construction-time name. -/
theorem set_program_keeps_program_field (n code p : List Nat) :
    ((MemFdExecutable.new n code).set_program p).argv.head?
        = some (os2c p (MemFdExecutable.new n code).saw_nul).1
    ∧ ((MemFdExecutable.new n code).set_program p).args.head?
        = some (os2c p (MemFdExecutable.new n code).saw_nul).1
    ∧ ((MemFdExecutable.new n code).set_program p).program
        = (MemFdExecutable.new n code).program
    ∧ ((MemFdExecutable.new n code).set_program p).get_program_cstr
        = (MemFdExecutable.new n code).get_program_cstr
    ∧ ((MemFdExecutable.new n code).set_program p).program_is_path
        = (MemFdExecutable.new n code).program_is_path := by
  refine ⟨?_, ?_, rfl, rfl, rfl⟩ <;>
    simp [MemFdExecutable.new, MemFdExecutable.set_program]

/-- `ExitStatus` (process.rs:68): a raw wait-status word. Statuses are the
nonnegative `c_int` values produced by `waitpid`, modeled as `Nat`. -/
structure ExitStatus where
  raw : Nat
deriving DecidableEq

/-- `libc::WIFEXITED` on Linux: `(status & 0x7f) == 0`. -/
def WIFEXITED (s : Nat) : Bool := s % 128 == 0

/-- `libc::WEXITSTATUS` on Linux: `(status >> 8) & 0xff`. -/
def WEXITSTATUS (s : Nat) : Nat := (s / 256) % 256

/-- `libc::WIFSIGNALED` on Linux: `((status & 0x7f) + 1) as i8 >> 1 > 0`,
with the `i8` cast and arithmetic shift made explicit over `Int`. -/
def WIFSIGNALED (s : Nat) : Bool :=
  let t : Int := ((s % 128 : Nat) : Int) + 1
  let t8 : Int := if 128 ≤ t then t - 256 else t
  decide (0 < t8 / 2)

/-- `libc::WTERMSIG` on Linux: `status & 0x7f`. -/
def WTERMSIG (s : Nat) : Nat := s % 128

/-- `c_int::try_from(x)` where `x` is already a `c_int`: the reflexive
`TryFrom`, which always succeeds. This is what `ExitStatus::exit_ok`
(process.rs:93) matches on. -/
def c_int_try_from (x : Nat) : Except Unit Nat := .ok x

/-- `ExitStatus::exit_ok` (process.rs:86-101): `Ok(failure)` from the
conversion yields `Err("process exited with status failure")` (carried here
as the numeric status), the unreachable `Err` arm yields `Ok(())`. -/
def ExitStatus.exit_ok (s : ExitStatus) : Except Nat Unit :=
  match c_int_try_from s.raw with
  | .ok failure => .error failure
  | .error _ => .ok ()

/-- `ExitStatus::success` (process.rs:107-109): `exit_ok().is_ok()`. -/
def ExitStatus.success (s : ExitStatus) : Bool :=
  match s.exit_ok with
  | .ok _ => true
  | .error _ => false

/-- `ExitStatus::code` (process.rs:122-124). -/
def ExitStatus.code (s : ExitStatus) : Option Nat :=
  if WIFEXITED s.raw then some (WEXITSTATUS s.raw) else none

/-- `ExitStatus::signal` (process.rs:129-131). -/
def ExitStatus.signal (s : ExitStatus) : Option Nat :=
  if WIFSIGNALED s.raw then some (WTERMSIG s.raw) else none

/-- Claim C4: the raw status 0 encodes a normal exit with code 0 (`WIFEXITED`
holds, `code` is `some 0`, `signal` is `none`), yet `success` is `false` —
indeed `success` is `false` on every status, because `exit_ok` matches on
the always-successful reflexive `c_int::try_from` and so always takes the
error arm, contradicting the claim that `success` holds exactly on a normal
exit with code 0. -/
theorem success_always_false :
    (∀ s : ExitStatus, s.success = false)
    ∧ WIFEXITED 0 = true
    ∧ ExitStatus.code ⟨0⟩ = some 0
    ∧ ExitStatus.signal ⟨0⟩ = none
    ∧ ExitStatus.success ⟨0⟩ = false :=
  ⟨fun _ => rfl, rfl, rfl, by decide, rfl⟩

/-- `Process` (process.rs:12-15): a pid plus the lazily cached exit
status. -/
structure Process where
  pid : Int
  status : Option ExitStatus
deriving DecidableEq

/-- `Process::kill` (process.rs:27-39). The result of the `kill` syscall is
passed in as `sys`; the triple returned is (result, new process state,
whether the signal syscall was issued). -/
def Process.kill (p : Process) (sys : Except Nat Unit) :
    Except IOError Unit × Process × Bool :=
  match p.status with
  | some _ => (.error .invalidInput, p, false)
  | none =>
    match sys with
    | .error e => (.error (.osError e), p, true)
    | .ok _ => (.ok (), p, true)

/-- `Process::wait` (process.rs:41-49). The blocking `waitpid` outcome (via
`cvt_r`, which already retries interrupted syscalls) is passed in as `sys`:
an errno or the raw status. The triple returned is (result, new process
state, whether a syscall was made). -/
def Process.wait (p : Process) (sys : Except Nat Nat) :
    Except IOError ExitStatus × Process × Bool :=
  match p.status with
  | some st => (.ok st, p, false)
  | none =>
    match sys with
    | .error e => (.error (.osError e), p, true)
    | .ok s => (.ok ⟨s⟩, { p with status := some ⟨s⟩ }, true)

/-- `Process::try_wait` (process.rs:51-63). The non-blocking `waitpid`
outcome is passed in as `sys`: an errno, `none` for a zero pid (child still
running), or the raw status. -/
def Process.try_wait (p : Process) (sys : Except Nat (Option Nat)) :
    Except IOError (Option ExitStatus) × Process × Bool :=
  match p.status with
  | some st => (.ok (some st), p, false)
  | none =>
    match sys with
    | .error e => (.error (.osError e), p, true)
    | .ok none => (.ok none, p, true)
    | .ok (some s) => (.ok (some ⟨s⟩), { p with status := some ⟨s⟩ }, true)

/-- Claim C8: once a status is cached, `wait` and `try_wait` return that same
cached status without a syscall and without changing state; `try_wait` on a
still-running process returns "still running" without mutating the state;
and no operation (including `kill`) ever clears a cached status, so the
state machine never moves from Terminated back to Running. -/
theorem process_terminated_is_final (p : Process) (st : ExitStatus)
    (sysW : Except Nat Nat) (sysT : Except Nat (Option Nat))
    (sysK : Except Nat Unit) :
    (p.status = some st → p.wait sysW = (.ok st, p, false))
    ∧ (p.status = some st → p.try_wait sysT = (.ok (some st), p, false))
    ∧ (p.status = none → p.try_wait (.ok none) = (.ok none, p, true))
    ∧ (p.kill sysK).2.1.status = p.status
    ∧ ((p.wait sysW).2.1.status = none → p.status = none)
    ∧ ((p.try_wait sysT).2.1.status = none → p.status = none) := by
  refine ⟨?_, ?_, ?_, ?_, ?_, ?_⟩ <;>
    cases hst : p.status <;>
    simp [Process.wait, Process.try_wait, Process.kill, hst] <;>
    cases sysW <;> cases sysT <;> cases sysK <;>
    simp [Process.wait, Process.try_wait, Process.kill, hst]

/-- Witness for `process_terminated_is_final` at concrete states. -/
theorem process_terminated_is_final_witness :
    Process.wait ⟨5, some ⟨0⟩⟩ (.ok 256) = (.ok ⟨0⟩, ⟨5, some ⟨0⟩⟩, false)
    ∧ Process.try_wait ⟨5, some ⟨0⟩⟩ (.ok none)
        = (.ok (some ⟨0⟩), ⟨5, some ⟨0⟩⟩, false)
    ∧ Process.try_wait ⟨5, none⟩ (.ok none) = (.ok none, ⟨5, none⟩, true)
    ∧ (⟨5, none⟩ : Process).status = none
    ∧ (⟨5, none⟩ : Process).status = none :=
  ⟨(process_terminated_is_final ⟨5, some ⟨0⟩⟩ ⟨0⟩ (.ok 256) (.ok none) (.ok ())).1 rfl,
   (process_terminated_is_final ⟨5, some ⟨0⟩⟩ ⟨0⟩ (.ok 256) (.ok none) (.ok ())).2.1 rfl,
   (process_terminated_is_final ⟨5, none⟩ ⟨0⟩ (.ok 256) (.ok none) (.ok ())).2.2.1 rfl,
   (process_terminated_is_final ⟨5, none⟩ ⟨0⟩ (.error 10) (.error 10) (.ok ())).2.2.2.2.1 rfl,
   (process_terminated_is_final ⟨5, none⟩ ⟨0⟩ (.error 10) (.error 10) (.ok ())).2.2.2.2.2 rfl⟩

/-- Claim C9: `kill` on a process with a cached exit status returns the explicit
invalid-input "already exited" error without issuing the signal syscall;
only in the Running state (no cached status) is the syscall issued. -/
theorem kill_refused_after_exit (p : Process) (sys : Except Nat Unit) :
    (p.status.isSome = true → p.kill sys = (.error .invalidInput, p, false))
    ∧ (p.status = none → (p.kill sys).2.2 = true) := by
  refine ⟨?_, ?_⟩ <;> cases hst : p.status <;>
    simp [Process.kill, hst] <;> cases sys <;> simp [Process.kill, hst]

/-- Witness for `kill_refused_after_exit` at concrete states. -/
theorem kill_refused_after_exit_witness :
    Process.kill ⟨7, some ⟨0⟩⟩ (.ok ())
        = (.error .invalidInput, ⟨7, some ⟨0⟩⟩, false)
    ∧ (Process.kill ⟨7, none⟩ (.ok ())).2.2 = true :=
  ⟨(kill_refused_after_exit ⟨7, some ⟨0⟩⟩ (.ok ())).1 rfl,
   (kill_refused_after_exit ⟨7, none⟩ (.ok ())).2 rfl⟩

/-- `CLOEXEC_MSG_FOOTER` (executable.rs:373): the bytes of `b"NOEX"`. -/
def CLOEXEC_MSG_FOOTER : List Nat := [78, 79, 69, 88]

/-- How the child's `do_exec` call ends, as seen from the child branch of
`spawn` (executable.rs:398-402): the image was replaced (exec succeeded and
`do_exec` never returns), or `do_exec` returned `Ok` (hitting the
`let Err(err) = ... else unreachable` arm), or it returned an error. -/
inductive DoExecReturn
  | replaced
  | returnedOk
  | returnedErr (e : IOError)
deriving DecidableEq

/-- Actions the child branch of `spawn` can perform after the fork. -/
inductive ChildAction
  | dropInput
  | pipeWrite (bytes : List Nat)
  | panicked
  | execReplaced
deriving DecidableEq

/-- The child branch of `spawn` (executable.rs:398-402): drop the parent's
read end, run `do_exec`; if it returns `Err` the child panics ("failed to
exec"), if it returns `Ok` the child panics in the unreachable arm. In
neither case does the child write anything to the error-report pipe. -/
def spawn_child_branch : DoExecReturn → List ChildAction
  | .replaced => [.dropInput, .execReplaced]
  | .returnedOk => [.dropInput, .panicked]
  | .returnedErr _ => [.dropInput, .panicked]

/-- The bytes a list of child actions writes to the error-report pipe. -/
def pipe_bytes (acts : List ChildAction) : List Nat :=
  acts.foldl (fun acc a => match a with | .pipeWrite bs => acc ++ bs | _ => acc) []

/-- `i32::from_be_bytes` over four byte values. -/
def i32_from_be_bytes (a b c d : Nat) : Int :=
  let v := ((a * 256 + b) * 256 + c) * 256 + d
  if v < 2 ^ 31 then (v : Int) else (v : Int) - 2 ^ 32

/-- How the parent's read loop in `spawn` resolves. -/
inductive SpawnReadResult
  | childHandle
  | spawnErr (errno : Int)
  | panicFooterMismatch
  | panicShortRead
deriving DecidableEq

/-- The parent's read of the error-report channel (executable.rs:409-437),
as a function of the bytes the child wrote before its write end closed: a
0-byte read returns the `Child` handle; an 8-byte read checks the `NOEX`
footer (child is reaped and the big-endian errno of the first four bytes is
returned as the spawn error); any other byte count is a fatal short read. -/
def spawn_parent_read (bytes : List Nat) : SpawnReadResult :=
  match bytes with
  | [] => .childHandle
  | [b0, b1, b2, b3, f0, f1, f2, f3] =>
    if [f0, f1, f2, f3] = CLOEXEC_MSG_FOOTER
    then .spawnErr (i32_from_be_bytes b0 b1 b2 b3)
    else .panicFooterMismatch
  | _ => .panicShortRead

/-- Claim C1: whatever `do_exec` returns, the child branch never writes to the
error-report channel — on an exec failure it panics instead of sending the
4-byte errno plus `NOEX` footer — so the parent reads 0 bytes and returns a
`Child` handle even though exec never occurred. (The parent's 8-byte decode
branch itself does return the decoded errno, but no child-side write can
reach it.) -/
theorem child_never_writes_error_report :
    (∀ r : DoExecReturn, pipe_bytes (spawn_child_branch r) = [])
    ∧ (∀ e : IOError,
        spawn_parent_read (pipe_bytes (spawn_child_branch (.returnedErr e)))
          = .childHandle)
    ∧ spawn_parent_read ([0, 0, 0, 2] ++ CLOEXEC_MSG_FOOTER) = .spawnErr 2 :=
  ⟨fun r => by cases r <;> rfl, fun _ => rfl, by decide⟩

/-- What a call into the exec machinery produces: the process image was
replaced by a successful `fexecve`, or the function returned `Ok(())`, or it
returned an error. -/
inductive FbResult
  | replaced
  | ok
  | err (e : IOError)
deriving DecidableEq

/-- Descriptor-level events the embedded exec code performs, used to observe
that a failing descriptor is closed before the fallback tier runs. -/
inductive Event
  | closeFd (fd : Nat)
  | calledFallback
deriving DecidableEq

/-- `do_fexecve` (executable.rs:153-162): on `fexecve` failure (the errno is
passed in as `res = some errno`), close the descriptor and return a
permission-denied error; on success the image is replaced. -/
def do_fexecve (fd : Nat) (res : Option Nat) : List Event × FbResult :=
  match res with
  | none => ([], .replaced)
  | some errno => ([.closeFd fd], .err (.permissionDenied errno))

/-- Oracle for one candidate directory of `fallback_exec`
(executable.rs:570-620): the outcomes of the filesystem and exec operations
attempted there. `fexecveRes`/`retry_fexecveRes` are `none` when the exec
succeeds. `forkRes` is the view of the calling process, which on success is
the parent (`ForkResult::Child` runs in a different process). -/
structure FallbackDirOracle where
  create_open : Except IOError Nat
  is_exe : Bool
  remove_dir_all : Except IOError Unit
  write_prog_res : Except IOError Unit
  open_fd : Except IOError Nat
  fexecveRes : Option Nat
  retry_create_open : Except IOError Nat
  retry_write_prog : Except IOError Unit
  forkRes : Except IOError Unit
  retry_open_fd : Except IOError Nat
  retry_fexecveRes : Option Nat

/-- One iteration of the `fallback_exec` candidate loop
(executable.rs:577-619). `none` means the iteration hit `continue` and the
loop moves to the next candidate; `some r` means the function terminates
with `r`. Every `?` in the source is an immediate error return. -/
def fallback_dir (d : FallbackDirOracle) : Option FbResult :=
  match d.create_open with
  | .error e => some (.err e)
  | .ok _ =>
    if !d.is_exe then
      match d.remove_dir_all with
      | .error e => some (.err e)
      | .ok _ => none
    else
      match d.write_prog_res with
      | .error e => some (.err e)
      | .ok _ =>
        match d.open_fd with
        | .error e => some (.err e)
        | .ok fd =>
          match (do_fexecve fd d.fexecveRes).2 with
          | .replaced => some .replaced
          | .ok => some .ok
          | .err e1 =>
            match d.retry_create_open with
            | .error e => some (.err e)
            | .ok _ =>
              match d.retry_write_prog with
              | .error e => some (.err e)
              | .ok _ =>
                match d.forkRes with
                | .error _ => some (.err e1)
                | .ok _ =>
                  match d.retry_open_fd with
                  | .error e => some (.err e)
                  | .ok fd2 => some ((do_fexecve fd2 d.retry_fexecveRes).2)

/-- `MemFdExecutable::fallback_exec` (executable.rs:563-622): iterate the
candidate directories (in the source the fixed list `temp_dir`, `/dev/shm`,
`~/.cache`, here the list of their oracles); when the loop body neither
returns nor continues past the last candidate, the function falls through
to its final `Ok(())`. -/
def fallback_exec (dirs : List FallbackDirOracle) : FbResult :=
  match dirs with
  | [] => .ok
  | d :: rest =>
    match fallback_dir d with
    | some r => r
    | none => fallback_exec rest

/-- A candidate directory where file creation succeeds but the executability
check fails (e.g. the directory is on a noexec mount). -/
def notExeDir : FallbackDirOracle :=
  { create_open := .ok 4, is_exe := false, remove_dir_all := .ok (),
    write_prog_res := .ok (), open_fd := .ok 4, fexecveRes := none,
    retry_create_open := .ok 4, retry_write_prog := .ok (), forkRes := .ok (),
    retry_open_fd := .ok 4, retry_fexecveRes := none }

/-- A candidate directory where everything succeeds and `fexecve` replaces
the image. -/
def execOkDir : FallbackDirOracle :=
  { notExeDir with is_exe := true }

/-- A candidate directory where `create_and_open_file` itself fails (errno
30, read-only filesystem). -/
def createFailDir : FallbackDirOracle :=
  { notExeDir with create_open := .error (.osError 30) }

/-- Claim C3: exhausting all three candidate directories (each failing the
executability check) makes `fallback_exec` fall through to `Ok(())` —
reported as success, not as a fallback-exhausted error; and a candidate
whose directory/file creation fails aborts the whole fallback through `?`
instead of moving to the next candidate (which here would have succeeded).
Only the executability-check failure actually moves to the next
candidate. -/
theorem fallback_exhaustion_returns_ok :
    fallback_exec [notExeDir, notExeDir, notExeDir] = .ok
    ∧ fallback_exec [createFailDir, execOkDir, execOkDir]
        = .err (.osError 30)
    ∧ fallback_exec [notExeDir, execOkDir, execOkDir] = .replaced := by
  refine ⟨rfl, rfl, rfl⟩

/-- Oracle for the tier-1 (memfd) portion of `do_exec`
(executable.rs:679-722): the `NO_MEMFDEXEC` toggle, the `memfd_create`
outcome, the executability check on `/proc/self/fd/<mfd>`, the image write,
and the `fexecve` outcome (`none` = image replaced). -/
structure ExecOracle where
  no_memfdexec : Bool
  memfd_create : Except Nat Nat
  memfd_is_exe : Bool
  write_prog_res : Except IOError Unit
  fexecveRes : Option Nat

/-- The exec-tier dispatch of `do_exec` (executable.rs:679-722), after the
stdio/cwd/signal-mask setup: when the toggle disables tier 1, call
`fallback_exec` directly; otherwise create the memfd (a descriptor failing
the executability check is closed and turned into an `EACCES` failure), and
on any memfd failure fall through to `fallback_exec`, whose result is the
final one. A `write_prog` failure propagates through `?` without fallback.
The event list records descriptor closes and the fallback call, in
order. -/
def do_exec_tiers (o : ExecOracle) (dirs : List FallbackDirOracle) :
    List Event × FbResult :=
  if o.no_memfdexec then
    ([.calledFallback], fallback_exec dirs)
  else
    match o.memfd_create with
    | .error _ => ([.calledFallback], fallback_exec dirs)
    | .ok fd =>
      if !o.memfd_is_exe then
        ([.closeFd fd, .calledFallback], fallback_exec dirs)
      else
        match o.write_prog_res with
        | .error e => ([], .err e)
        | .ok _ =>
          match do_fexecve fd o.fexecveRes with
          | (evs, .replaced) => (evs, .replaced)
          | (evs, _) => (evs ++ [.calledFallback], fallback_exec dirs)

/-- Claim C7: each recoverable tier-1 failure — `memfd_create` failing, the memfd
not recognized as executable, or `fexecve` failing — makes `do_exec` fall
through to the temporary-file fallback instead of surfacing the tier-1
error (the final result is exactly the fallback's), and in the two cases
where a descriptor exists it is closed (the `closeFd` event) before the
fallback is called. -/
theorem tier1_failures_fall_through (o : ExecOracle)
    (dirs : List FallbackDirOracle) (hm : o.no_memfdexec = false) :
    (∀ e, o.memfd_create = .error e →
      do_exec_tiers o dirs = ([.calledFallback], fallback_exec dirs))
    ∧ (∀ fd, o.memfd_create = .ok fd → o.memfd_is_exe = false →
      do_exec_tiers o dirs
        = ([.closeFd fd, .calledFallback], fallback_exec dirs))
    ∧ (∀ fd errno, o.memfd_create = .ok fd → o.memfd_is_exe = true →
      o.write_prog_res = .ok () → o.fexecveRes = some errno →
      do_exec_tiers o dirs
        = ([.closeFd fd, .calledFallback], fallback_exec dirs)) := by
  refine ⟨?_, ?_, ?_⟩
  · intro e he
    simp [do_exec_tiers, hm, he]
  · intro fd hfd hexe
    simp [do_exec_tiers, hm, hfd, hexe]
  · intro fd errno hfd hexe hw hf
    simp [do_exec_tiers, do_fexecve, hm, hfd, hexe, hw, hf]

/-- Witness for `tier1_failures_fall_through` covering all three failure
modes at concrete oracles. -/
theorem tier1_failures_fall_through_witness :
    do_exec_tiers ⟨false, .error 38, true, .ok (), none⟩ []
      = ([.calledFallback], fallback_exec [])
    ∧ do_exec_tiers ⟨false, .ok 5, false, .ok (), none⟩ []
      = ([.closeFd 5, .calledFallback], fallback_exec [])
    ∧ do_exec_tiers ⟨false, .ok 5, true, .ok (), some 8⟩ []
      = ([.closeFd 5, .calledFallback], fallback_exec []) :=
  ⟨(tier1_failures_fall_through ⟨false, .error 38, true, .ok (), none⟩ [] rfl).1
      38 rfl,
   (tier1_failures_fall_through ⟨false, .ok 5, false, .ok (), none⟩ [] rfl).2.1
      5 rfl rfl,
   (tier1_failures_fall_through ⟨false, .ok 5, true, .ok (), some 8⟩ [] rfl).2.2
      5 8 rfl rfl rfl rfl⟩

end MemfdExec
